import Mathlib

/-!
# pcre2_study: the wrappers of `src/pcre2.c` around the PCRE2 library

`src/pcre2.c` holds the helpers (`re_ismatch`, `re_match`, `free_matches`, `re_replace`,
`re_group_bynumber`, `re_group_byname`) that compile a pattern, run one library call and copy
the results out.  The PCRE2 library itself is not part of the source file: it is a parameter of
every definition below (`Pcre2`), so that each theorem holds for every behaviour the library
may show, and the wrappers are translated statement by statement.

Conventions of the embedding:
* a `char *` argument is the list of bytes stored at that address; the C string it holds is the
  part before the first NUL (`cstring`), and `strlen` is its length;
* `size_t` / `PCRE2_SIZE` values are naturals below `2 ^ 64`, with explicit reduction where the
  source subtracts; `int` values are integers;
* an output buffer is the list of bytes the function stores from its first cell on;
* `*matches` is `none` for the null pointer and `some l` for an allocated array of strings.
-/

namespace Pcre2Study

/-! ## C strings and formatting -/

/-- Bytes of an ASCII literal. -/
def bytes (s : String) : List Nat := s.toList.map Char.toNat

/-- The C string held by a byte sequence: everything before the first NUL. -/
def cstring (s : List Nat) : List Nat := s.takeWhile (fun b => b != 0)

/-- C `strlen`. -/
def strlen (s : List Nat) : Nat := (cstring s).length

/-- The bytes `s[a], ..., s[b-1]` of a byte sequence. -/
def slice (s : List Nat) (a b : Nat) : List Nat := (s.drop a).take (b - a)

/-- Modulus of `size_t` arithmetic (64-bit target). -/
def SIZE_MODULUS : Nat := 2 ^ 64

/-- Conversion of a `size_t` to `int` (32-bit two's complement), as in `(int)erroroffset`. -/
def to_int (n : Nat) : Int :=
  if n % 2 ^ 32 < 2 ^ 31 then (n % 2 ^ 32 : Nat) else ((n % 2 ^ 32 : Nat) : Int) - 2 ^ 32

/-- A `size_t` read as `long` (64-bit two's complement), as `%ld` does. -/
def to_long (n : Nat) : Int :=
  if n % 2 ^ 64 < 2 ^ 63 then (n % 2 ^ 64 : Nat) else ((n % 2 ^ 64 : Nat) : Int) - 2 ^ 64

/-- Decimal digits of `n` in front of `acc`, at most `fuel` of them. -/
def fmt_nat_aux : Nat → Nat → List Nat → List Nat
  | 0, _, acc => acc
  | fuel + 1, n, acc =>
    if n < 10 then (48 + n) :: acc else fmt_nat_aux fuel (n / 10) ((48 + n % 10) :: acc)

/-- Decimal digits of a natural number, as bytes; twenty digits cover every 64-bit value. -/
def fmt_nat (n : Nat) : List Nat := fmt_nat_aux 20 n []

/-- Output of the `%d` / `%ld` conversions. -/
def fmt_int (i : Int) : List Nat :=
  if i < 0 then 45 :: fmt_nat i.natAbs else fmt_nat i.toNat

/-- Output of the `%s` conversion. -/
def fmt_s (buf : List Nat) : List Nat := cstring buf

/-- Output of the `%.*s` conversion: at most `prec` bytes of the string; a negative precision
counts as omitted. -/
def fmt_s_prec (prec : Int) (buf : List Nat) : List Nat :=
  if prec < 0 then cstring buf else (cstring buf).take prec.toNat

/-! ## Constants of the PCRE2 header

`pcre2.h` is not under `src/`; the values are those the header publishes. -/

/-- Length argument meaning "the string is NUL terminated": `~(PCRE2_SIZE)0`. -/
def PCRE2_ZERO_TERMINATED : Nat := 2 ^ 64 - 1

/-- Offset stored in the ovector for a group that took no part in the match: `~(PCRE2_SIZE)0`. -/
def PCRE2_UNSET : Nat := 2 ^ 64 - 1

/-- Compile option `PCRE2_CASELESS`. -/
def PCRE2_CASELESS : Nat := 0x00000008

/-- Compile option `PCRE2_NO_UTF_CHECK`. -/
def PCRE2_NO_UTF_CHECK : Nat := 0x40000000

/-- Substitute option `PCRE2_SUBSTITUTE_GLOBAL`. -/
def PCRE2_SUBSTITUTE_GLOBAL : Nat := 0x00000100

/-- Substitute option `PCRE2_SUBSTITUTE_EXTENDED`. -/
def PCRE2_SUBSTITUTE_EXTENDED : Nat := 0x00000200

/-- Return code of `pcre2_match` when the subject does not match. -/
def PCRE2_ERROR_NOMATCH : Int := -1

/-- Match option `PCRE2_NOTEMPTY_ATSTART`: an empty match at the start offset is not a match. -/
def PCRE2_NOTEMPTY_ATSTART : Nat := 0x00000008

/-- Match option `PCRE2_ANCHORED`: the match has to begin at the start offset. -/
def PCRE2_ANCHORED : Nat := 0x80000000

/-- Return code of `pcre2_match` for a start offset past the end of the subject. -/
def PCRE2_ERROR_BADOFFSET : Int := -33

/-- Return code for an unexpected internal error. -/
def PCRE2_ERROR_INTERNAL : Int := -44

/-- Return code of `pcre2_match` when the backtracking limit is reached. -/
def PCRE2_ERROR_MATCHLIMIT : Int := -47

/-- Return code of `pcre2_substitute` when the output buffer is too small. -/
def PCRE2_ERROR_NOMEMORY : Int := -48

/-- Return code of the substring functions for a group the pattern does not have. -/
def PCRE2_ERROR_NOSUBSTRING : Int := -49

/-- Return code of the substring functions for a group that is not set. -/
def PCRE2_ERROR_UNSET : Int := -55

/-! ## The library as a parameter -/

/-- The PCRE2 entry points `src/pcre2.c` calls.  Arguments the source always passes as `NULL`
(compile context, match context, the match data of `pcre2_substitute`) are left out; output
parameters become components of the result.

* `pcre2_compile pattern length options` is `ok code` or `error (errorcode, erroroffset)`;
* `pcre2_match code subject length startoffset options` is the return code and the match data
  block it filled;
* `pcre2_substitute code subject length startoffset options replacement rlength outlength`
  is the return code and the bytes stored in the output buffer;
* `pcre2_get_error_message errorcode size` is the string stored in a buffer of `size` bytes;
* `pcre2_substring_get_bynumber` and `pcre2_substring_get_byname` give the return code and
  the extracted string (the length they report is the length of that string).

`capture_count` is the number of capture groups of a compiled pattern
(`PCRE2_INFO_CAPTURECOUNT`); the wrappers never read it, statements about patterns do. -/
structure Pcre2 where
  Code : Type
  MatchData : Type
  pcre2_compile : List Nat → Nat → Nat → Except (Int × Nat) Code
  capture_count : Code → Nat
  pcre2_match : Code → List Nat → Nat → Nat → Nat → Int × MatchData
  pcre2_get_ovector_pointer : MatchData → List Nat
  pcre2_substitute : Code → List Nat → Nat → Nat → Nat → List Nat → Nat → Nat → Int × List Nat
  pcre2_get_error_message : Int → Nat → List Nat
  pcre2_substring_get_bynumber : MatchData → Nat → Int × List Nat
  pcre2_substring_get_byname : MatchData → List Nat → Int × List Nat

/-! ## `re_ismatch` -/

/-- Source `re_ismatch` (lines 14-48): `-1` is the initial `result`, overwritten with `1` when
`rc >= 0` and with `0` when `rc == PCRE2_ERROR_NOMATCH`. -/
def re_ismatch (L : Pcre2) (pattern subject : List Nat) (ignore_case : Int) : Int :=
  let result : Int := -1
  match L.pcre2_compile pattern PCRE2_ZERO_TERMINATED
      (PCRE2_NO_UTF_CHECK ||| (if ignore_case ≠ 0 then PCRE2_CASELESS else 0)) with
  | .error _ => -1
  | .ok re =>
    let rc := (L.pcre2_match re subject (strlen subject) 0 0).1
    if rc ≥ 0 then 1
    else if rc = PCRE2_ERROR_NOMATCH then 0
    else result

/-! ## `re_match` and `free_matches` -/

/-- Result of `strncpy(dst, src, n); dst[n] = 0;` read back as a C string: the first `n` bytes of
`src`, cut at the first NUL. -/
def strncpy_terminated (src : List Nat) (n : Nat) : List Nat := cstring (src.take n)

/-- Body of the copy loop of `re_match` (lines 87-92) for index `i`: the string stored in
`(*matches)[i]`.  `substring_start` is `pcre2_subject + ovector[2*i]`, `substring_length` is the
`size_t` difference `ovector[2*i+1] - ovector[2*i]`. -/
def substring_copy (subject ovector : List Nat) (i : Nat) : List Nat :=
  let substring_start := subject.drop (ovector.getD (2 * i) 0)
  let substring_length :=
    (ovector.getD (2 * i + 1) 0 + SIZE_MODULUS - ovector.getD (2 * i) 0) % SIZE_MODULUS
  strncpy_terminated substring_start substring_length

/-- Source `re_match` (lines 51-99): the return value and the final content of `*matches`,
given its initial content. -/
def re_match (L : Pcre2) (pattern subject : List Nat) (matches_ : Option (List (List Nat))) :
    Int × Option (List (List Nat)) :=
  match L.pcre2_compile pattern PCRE2_ZERO_TERMINATED PCRE2_NO_UTF_CHECK with
  | .error _ => (-1, matches_)
  | .ok re =>
    let r := L.pcre2_match re subject (strlen subject) 0 0
    let rc := r.1
    if rc > 1 then
      let ovector := L.pcre2_get_ovector_pointer r.2
      (rc, some ((List.range rc.toNat).map (substring_copy subject ovector)))
    else (rc, matches_)

/-- Whether `(*matches)[i]` names a cell of an allocated array. -/
def entry_exists (matches_ : Option (List (List Nat))) (i : Nat) : Bool :=
  match matches_ with
  | none => false
  | some l => decide (i < l.length)

/-- Source `free_matches` (lines 101-108): reads `(*matches)[i]` for every `i < matches_count`.
The result is `none` when one of these reads has no cell to read (null `*matches`, or an index
past the array), `some ()` when every read is of an existing entry. -/
def free_matches (matches_count : Int) (matches_ : Option (List (List Nat))) : Option Unit :=
  if (List.range matches_count.toNat).all (entry_exists matches_) then some () else none

/-! ## `re_replace` -/

/-- Content of a buffer after `new` is stored from its first cell over the earlier content
`old`. -/
def store (new old : List Nat) : List Nat := new ++ old.drop new.length

/-- Bytes `sprintf(result, "Error during replace: '%s'.", reg_error)` stores (line 145). -/
def sprintf_replace_error (reg_error : List Nat) : List Nat :=
  bytes "Error during replace: '" ++ fmt_s reg_error ++ bytes "'." ++ [0]

/-- Bytes `sprintf(result, "Error compiling regexp at offset #%ld: '%s'.", erroroffset,
reg_error)` stores (line 152). -/
def sprintf_compile_error (erroroffset : Nat) (reg_error : List Nat) : List Nat :=
  bytes "Error compiling regexp at offset #" ++ fmt_int (to_long erroroffset) ++ bytes ": '"
    ++ fmt_s reg_error ++ bytes "'." ++ [0]

/-- Source `re_replace` (lines 119-157): the return value and the bytes stored in `result`,
from its first cell on.  `sprintf` takes no length, so `result_len` reaches the library call
only. -/
def re_replace (L : Pcre2) (re replacement subject : List Nat) (result_len : Nat) (all : Int) :
    Int × List Nat :=
  let res : Int := 0
  match L.pcre2_compile re PCRE2_ZERO_TERMINATED PCRE2_NO_UTF_CHECK with
  | .ok compiled_re =>
    let r := L.pcre2_substitute compiled_re subject PCRE2_ZERO_TERMINATED 0
      (PCRE2_SUBSTITUTE_EXTENDED ||| (if all ≠ 0 then PCRE2_SUBSTITUTE_GLOBAL else 0))
      replacement PCRE2_ZERO_TERMINATED result_len
    let rc := r.1
    if rc < 0 then
      let reg_error := L.pcre2_get_error_message rc 4096
      (-1, store (sprintf_replace_error reg_error) r.2)
    else (res, r.2)
  | .error (errorcode, erroroffset) =>
    let reg_error := L.pcre2_get_error_message errorcode 4096
    (-1, sprintf_compile_error erroroffset reg_error)

/-! ## `re_group_bynumber` and `re_group_byname` -/

/-- Bytes `printf("PCRE2 compilation failed at offset %d: %s\n", (int)erroroffset, buffer)`
writes. -/
def printf_compile_failed (erroroffset : Nat) (buffer : List Nat) : List Nat :=
  bytes "PCRE2 compilation failed at offset " ++ fmt_int (to_int erroroffset) ++ bytes ": "
    ++ fmt_s buffer ++ bytes "\n"

/-- Bytes `printf("groupN=[%.*s]\n", (int)substr_buf_len, substr_buf)` writes, for the label
`group1` or `group2`. -/
def printf_group (label substr_buf : List Nat) : List Nat :=
  label ++ bytes "=[" ++ fmt_s_prec (to_int substr_buf.length) substr_buf ++ bytes "]\n"

/-- Source `re_group_bynumber` (lines 159-211): the return value and the bytes written to the
standard output. -/
def re_group_bynumber (L : Pcre2) (pattern subject : List Nat) : Int × List Nat :=
  match L.pcre2_compile pattern PCRE2_ZERO_TERMINATED PCRE2_NO_UTF_CHECK with
  | .error (errorcode, erroroffset) =>
    let buffer := L.pcre2_get_error_message errorcode 256
    (-1, printf_compile_failed erroroffset buffer)
  | .ok regex =>
    let r := L.pcre2_match regex subject (strlen subject) 0 0
    let rc := r.1
    if rc < 0 then (1, [])
    else
      let g1 := L.pcre2_substring_get_bynumber r.2 1
      let out1 := if g1.1 = 0 then printf_group (bytes "group1") g1.2 else []
      let g2 := L.pcre2_substring_get_bynumber r.2 2
      let out2 := if g2.1 = 0 then printf_group (bytes "group2") g2.2 else []
      (0, out1 ++ out2)

/-- Source `re_group_byname` (lines 213-265): the return value and the bytes written to the
standard output. -/
def re_group_byname (L : Pcre2) (pattern subject : List Nat) : Int × List Nat :=
  match L.pcre2_compile pattern PCRE2_ZERO_TERMINATED PCRE2_NO_UTF_CHECK with
  | .error (errorcode, erroroffset) =>
    let buffer := L.pcre2_get_error_message errorcode 256
    (-1, printf_compile_failed erroroffset buffer)
  | .ok regex =>
    let r := L.pcre2_match regex subject (strlen subject) 0 0
    let rc := r.1
    if rc < 0 then (1, [])
    else
      let g1 := L.pcre2_substring_get_byname r.2 (bytes "name")
      let out1 := if g1.1 = 0 then printf_group (bytes "group1") g1.2 else []
      let g2 := L.pcre2_substring_get_byname r.2 (bytes "help")
      let out2 := if g2.1 = 0 then printf_group (bytes "group2") g2.2 else []
      (0, out1 ++ out2)

/-! ## The substitution engine

`pcre2_substitute` is only called by `src/pcre2.c`.  Section 4.4 of the specification describes
the engine behind it; the definitions of this section follow that description, over the matcher
of the library (`pcre2_match`). -/

/-- Start offset of the whole match in an ovector. -/
def span_start (ovector : List Nat) : Nat := ovector.getD 0 0

/-- End offset of the whole match in an ovector. -/
def span_end (ovector : List Nat) : Nat := ovector.getD 1 0

/-- Options of the second search at the offset of an empty match: a match that begins at that
offset and is not empty. -/
def RETRY_OPTIONS : Nat := PCRE2_NOTEMPTY_ATSTART ||| PCRE2_ANCHORED

/-- Modelled from the spec: the loop of the Substitution Engine (section 4.4), which stands for
`pcre2_substitute`, absent from `src/`.  `find options start` is the matcher, `expand` gives the
text the replacement template stands for at a match.  State: the offset `start` up to which
the subject is consumed and from which the next search runs, whether the last match was empty
and ended here (`again`), the number of replacements, the output so far.

A search error other than "no match" ends the run with that error.  A match copies the bytes
before it and then the replacement text; single mode then copies the rest and stops, global
mode goes on from the end offset of the match.  After an empty match the search may not find
that empty match again: with `retry` it looks for a non-empty match beginning at the same
offset (what the library does), without `retry` it finds none there (the wording of section
4.4); when there is none, one byte is copied and the search goes on at the next byte, or the run
stops at the end of the subject.  With no fuel left the run ends with an internal error. -/
def substitute_loop (find : Nat → Nat → Int × List Nat) (expand : List Nat → List Nat)
    (subject : List Nat) (global retry : Bool) :
    Nat → Nat → Bool → Nat → List Nat → Except Int (Nat × List Nat)
  | 0, _, _, _, _ => .error PCRE2_ERROR_INTERNAL
  | fuel + 1, start, again, count, out =>
    let r :=
      if again then (if retry then find RETRY_OPTIONS start else (PCRE2_ERROR_NOMATCH, []))
      else find 0 start
    if r.1 < 0 then
      if r.1 ≠ PCRE2_ERROR_NOMATCH then .error r.1
      else if again = false ∨ subject.length ≤ start then .ok (count, out ++ subject.drop start)
      else substitute_loop find expand subject global retry fuel (start + 1) false count
        (out ++ slice subject start (start + 1))
    else
      let out1 := out ++ slice subject start (span_start r.2) ++ expand r.2
      if global then
        substitute_loop find expand subject global retry fuel (span_end r.2)
          (decide (span_end r.2 = span_start r.2)) (count + 1) out1
      else .ok (count + 1, out1 ++ subject.drop (span_end r.2))

/-- Rounds of the loop that cover a subject of the given length: every round moves to a later
offset, or stays once at the offset of an empty match. -/
def substitute_fuel (length : Nat) : Nat := 2 * length + 2

/-- Modelled from the spec: the Substitution Engine (section 4.4), which stands for
`pcre2_substitute`, absent from `src/`: the return code and the bytes of the output buffer.  A
run that ends with an error gives that error, an output that does not fit the capacity (its
terminating NUL included) gives `PCRE2_ERROR_NOMEMORY`; otherwise the result is the number of
replacements and the output string with its terminator. -/
def substitute_engine (find : Nat → Nat → Int × List Nat) (expand : List Nat → List Nat)
    (subject : List Nat) (global retry : Bool) (capacity : Nat) : Int × List Nat :=
  match substitute_loop find expand subject global retry (substitute_fuel subject.length)
      0 false 0 [] with
  | .error e => (e, [])
  | .ok (n, out) =>
    if out.length + 1 ≤ capacity then ((n : Int), out ++ [0]) else (PCRE2_ERROR_NOMEMORY, [])

/-- Compiled pattern of `recorded`: the pattern and whether `PCRE2_CASELESS` was given. -/
structure RecordedCode where
  pattern : List Nat
  caseless : Bool
  deriving DecidableEq

/-- Match data block of `recorded`. -/
structure RecordedMatchData where
  code : RecordedCode
  subject : List Nat
  rc : Int
  ovector : List Nat

/-- Pattern of `main` for `re_group_bynumber`. -/
def pattern_numbered : List Nat := bytes "^([\\da-zA-Z_/-]+):.*?## (.*)$"

/-- Pattern of `main` with the two groups named. -/
def pattern_named : List Nat := bytes "^(?P<name>[\\da-zA-Z_/-]+):.*?## (?P<help>.*)$"

/-- Number of capture groups and name table of the patterns `recorded` compiles. -/
def recorded_groups (pattern : List Nat) : Option (Nat × List (List Nat × Nat)) :=
  if pattern = bytes "NUMBER" then some (0, [])
  else if pattern = bytes "number" then some (0, [])
  else if pattern = bytes "\\d+" then some (0, [])
  else if pattern = bytes "\\d*" then some (0, [])
  else if pattern = bytes "a*?" then some (0, [])
  else if pattern = bytes "(a)" then some (1, [])
  else if pattern = bytes "(a)|b" then some (1, [])
  else if pattern = bytes "(a+)+$" then some (1, [])
  else if pattern = bytes "^(di|ke|se)(\\w+)$" then some (2, [])
  else if pattern = pattern_numbered then some (2, [])
  else if pattern = pattern_named then some (2, [(bytes "help", 2), (bytes "name", 1)])
  else none

/-- Compilation by `recorded`: error 114 (missing closing parenthesis) at offset 1 for `(`,
error 121 (heap memory) for a pattern it has no record of. -/
def recorded_compile (pattern : List Nat) (options : Nat) : Except (Int × Nat) RecordedCode :=
  let p := cstring pattern
  if p = bytes "(" then .error (114, 1)
  else
    match recorded_groups p with
    | some _ => .ok ⟨p, decide (options &&& PCRE2_CASELESS ≠ 0)⟩
    | none => .error (121, 0)

/-- ASCII digit. -/
def is_digit (b : Nat) : Bool := decide (48 ≤ b) && decide (b ≤ 57)

/-- Matcher for `\d+`: the first maximal run of digits at or after `start`, or the run at
`start` itself under `PCRE2_ANCHORED`. -/
def digit_run (subject : List Nat) (options start : Nat) : Int × List Nat :=
  let rest := subject.drop start
  let skipped :=
    if options &&& PCRE2_ANCHORED ≠ 0 then 0
    else (rest.takeWhile (fun b => !is_digit b)).length
  let run := ((rest.drop skipped).takeWhile is_digit).length
  if subject.length < start then (PCRE2_ERROR_BADOFFSET, [])
  else if run = 0 then (PCRE2_ERROR_NOMATCH, [PCRE2_UNSET, PCRE2_UNSET])
  else (1, [start + skipped, start + skipped + run])

/-- Matcher for `\d*`: the maximal run of digits at `start`, which may be empty.  Under
`PCRE2_NOTEMPTY_ATSTART` an empty run at `start` is no match: the search fails when it is
anchored, and finds the run at the next offset otherwise. -/
def digit_star (subject : List Nat) (options start : Nat) : Int × List Nat :=
  let run := ((subject.drop start).takeWhile is_digit).length
  let run1 := ((subject.drop (start + 1)).takeWhile is_digit).length
  if subject.length < start then (PCRE2_ERROR_BADOFFSET, [])
  else if run = 0 ∧ options &&& PCRE2_NOTEMPTY_ATSTART ≠ 0 then
    (if options &&& PCRE2_ANCHORED ≠ 0 ∨ subject.length ≤ start then
      (PCRE2_ERROR_NOMATCH, [PCRE2_UNSET, PCRE2_UNSET])
    else (1, [start + 1, start + 1 + run1]))
  else (1, [start, start + run])

/-- Matcher for `a*?`: the empty match at `start`.  Under `PCRE2_NOTEMPTY_ATSTART` the match at
`start` is the single `a` there; when there is none the search fails if it is anchored, and
finds the empty match at the next offset otherwise. -/
def lazy_star (subject : List Nat) (options start : Nat) : Int × List Nat :=
  if subject.length < start then (PCRE2_ERROR_BADOFFSET, [])
  else if options &&& PCRE2_NOTEMPTY_ATSTART = 0 then (1, [start, start])
  else if (subject.drop start).head? = some 97 then (1, [start, start + 1])
  else if options &&& PCRE2_ANCHORED ≠ 0 ∨ subject.length ≤ start then
    (PCRE2_ERROR_NOMATCH, [PCRE2_UNSET, PCRE2_UNSET])
  else (1, [start + 1, start + 1])

/-- Return code and ovector of `recorded` for a match from `start`. -/
def recorded_match (code : RecordedCode) (subject : List Nat) (options start : Nat) :
    Int × List Nat :=
  if code.pattern = bytes "\\d+" then digit_run subject options start
  else if code.pattern = bytes "\\d*" then digit_star subject options start
  else if code.pattern = bytes "a*?" then lazy_star subject options start
  else if start ≠ 0 then (PCRE2_ERROR_NOMEMORY, [])
  else if code.pattern = bytes "NUMBER" ∧ subject = bytes "Hello number 10" then
    (if code.caseless then (1, [6, 12]) else (PCRE2_ERROR_NOMATCH, [PCRE2_UNSET, PCRE2_UNSET]))
  else if code.pattern = bytes "number" ∧ subject = bytes "Hello number 10" then (1, [6, 12])
  else if code.pattern = bytes "(a)" ∧ subject = bytes "a" then (2, [0, 1, 0, 1])
  else if code.pattern = bytes "(a)|b" ∧ subject = bytes "b" then
    (1, [0, 1, PCRE2_UNSET, PCRE2_UNSET])
  else if code.pattern = bytes "(a+)+$"
      ∧ subject = bytes "aaaaaaaaaaaaaaaaaaaaaaaaaaaaaaaaaaaaaaaa!" then
    (PCRE2_ERROR_MATCHLIMIT, [PCRE2_UNSET, PCRE2_UNSET, PCRE2_UNSET, PCRE2_UNSET])
  else if code.pattern = bytes "^(di|ke|se)(\\w+)$" ∧ subject = bytes "disable" then
    (3, [0, 7, 0, 2, 2, 7])
  else if (code.pattern = pattern_numbered ∨ code.pattern = pattern_named)
      ∧ subject = bytes "build:  ## compile this software" then
    (3, [0, 32, 0, 5, 11, 32])
  else (PCRE2_ERROR_NOMEMORY, [])

/-- Error texts of `recorded`; the buffer keeps at most `size - 1` bytes of the text. -/
def recorded_error_message (errorcode : Int) (size : Nat) : List Nat :=
  let text :=
    if errorcode = 114 then bytes "missing closing parenthesis"
    else if errorcode = 121 then bytes "failed to allocate heap memory"
    else if errorcode = PCRE2_ERROR_NOMATCH then bytes "no match"
    else if errorcode = PCRE2_ERROR_MATCHLIMIT then bytes "match limit exceeded"
    else if errorcode = PCRE2_ERROR_NOMEMORY then bytes "no more memory"
    else []
  text.take (size - 1)

/-- Extraction by number in `recorded`: `PCRE2_ERROR_NOSUBSTRING` for a group the pattern does
not have, `PCRE2_ERROR_UNSET` for a group that is not set, otherwise `0` and the bytes of the
group's span. -/
def recorded_get_bynumber (md : RecordedMatchData) (number : Nat) : Int × List Nat :=
  match recorded_groups md.code.pattern with
  | none => (PCRE2_ERROR_NOSUBSTRING, [])
  | some (count, _) =>
    if count < number then (PCRE2_ERROR_NOSUBSTRING, [])
    else if md.rc ≤ number ∨ md.ovector.getD (2 * number) PCRE2_UNSET = PCRE2_UNSET then
      (PCRE2_ERROR_UNSET, [])
    else (0, slice md.subject (md.ovector.getD (2 * number) 0) (md.ovector.getD (2 * number + 1) 0))

/-- Extraction by name in `recorded`: the name is looked up in the name table of the pattern, then
the group of that number is extracted. -/
def recorded_get_byname (md : RecordedMatchData) (name : List Nat) : Int × List Nat :=
  match recorded_groups md.code.pattern with
  | none => (PCRE2_ERROR_NOSUBSTRING, [])
  | some (_, names) =>
    match names.lookup (cstring name) with
    | none => (PCRE2_ERROR_NOSUBSTRING, [])
    | some number => recorded_get_bynumber md number

/-- Substitution by `recorded`: the engine, with the second search after an empty match, for
a replacement that is plain text (no `$`, no backslash). -/
def recorded_substitute (code : RecordedCode) (subject : List Nat) (options : Nat)
    (replacement : List Nat) (capacity : Nat) : Int × List Nat :=
  if (cstring replacement).all (fun b => b != 36 && b != 92) then
    substitute_engine (recorded_match code (cstring subject)) (fun _ => cstring replacement)
      (cstring subject) (decide (options &&& PCRE2_SUBSTITUTE_GLOBAL ≠ 0)) true capacity
  else (PCRE2_ERROR_NOMEMORY, [])

/-- The library instance. -/
def recorded : Pcre2 where
  Code := RecordedCode
  MatchData := RecordedMatchData
  pcre2_compile := fun pattern _ options => recorded_compile pattern options
  capture_count := fun code => ((recorded_groups code.pattern).map Prod.fst).getD 0
  pcre2_match := fun code subject length start options =>
    let r := recorded_match code (subject.take length) options start
    (r.1, ⟨code, subject.take length, r.1, r.2⟩)
  pcre2_get_ovector_pointer := fun md => md.ovector
  pcre2_substitute := fun code subject _ _ options replacement _ capacity =>
    recorded_substitute code subject options replacement capacity
  pcre2_get_error_message := recorded_error_message
  pcre2_substring_get_bynumber := recorded_get_bynumber
  pcre2_substring_get_byname := recorded_get_byname

/-! ## Vocabulary of the statements -/

/-- Return code of the match call every wrapper makes:
`pcre2_match(re, subject, strlen(subject), 0, 0, match_data, NULL)`. -/
def match_rc (L : Pcre2) (re : L.Code) (subject : List Nat) : Int :=
  (L.pcre2_match re subject (strlen subject) 0 0).1

/-- The substitute call of `re_replace` (lines 128-140): its return code and the bytes it stores
in `result`. -/
def substitute_call (L : Pcre2) (compiled_re : L.Code) (replacement subject : List Nat)
    (result_len : Nat) (all : Int) : Int × List Nat :=
  L.pcre2_substitute compiled_re subject PCRE2_ZERO_TERMINATED 0
    (PCRE2_SUBSTITUTE_EXTENDED ||| (if all ≠ 0 then PCRE2_SUBSTITUTE_GLOBAL else 0))
    replacement PCRE2_ZERO_TERMINATED result_len

/-- Name lookup of a compiled pattern resolves `name` to group `number`: on the match data of
every match of that pattern, extraction under that name is extraction under that number. -/
def NameIsNumber (L : Pcre2) (re : L.Code) (name : List Nat) (number : Nat) : Prop :=
  ∀ (subject : List Nat) (length : Nat),
    L.pcre2_substring_get_byname (L.pcre2_match re subject length 0 0).2 name
      = L.pcre2_substring_get_bynumber (L.pcre2_match re subject length 0 0).2 number

/-- Subject of the group tests of `main`. -/
def subject_build : List Nat := bytes "build:  ## compile this software"

/-- C1: `re_ismatch` follows its documented result mapping.  When `pcre2_compile` fails the
result is `-1`; when it succeeds the result is `1` exactly when the return code of `pcre2_match`
is `>= 0`, and `0` exactly when that return code is `PCRE2_ERROR_NOMATCH`. -/
theorem re_ismatch_result_mapping (L : Pcre2) (pattern subject : List Nat) (ignore_case : Int) :
    (∀ e, L.pcre2_compile pattern PCRE2_ZERO_TERMINATED
        (PCRE2_NO_UTF_CHECK ||| (if ignore_case ≠ 0 then PCRE2_CASELESS else 0)) = .error e →
      re_ismatch L pattern subject ignore_case = -1) ∧
    (∀ re, L.pcre2_compile pattern PCRE2_ZERO_TERMINATED
        (PCRE2_NO_UTF_CHECK ||| (if ignore_case ≠ 0 then PCRE2_CASELESS else 0)) = .ok re →
      (re_ismatch L pattern subject ignore_case = 1 ↔
        0 ≤ (L.pcre2_match re subject (strlen subject) 0 0).1) ∧
      (re_ismatch L pattern subject ignore_case = 0 ↔
        (L.pcre2_match re subject (strlen subject) 0 0).1 = PCRE2_ERROR_NOMATCH)) := by
  refine ⟨fun e he => ?_, fun re hre => ?_⟩
  · simp only [re_ismatch, he]
  · simp only [re_ismatch, hre, PCRE2_ERROR_NOMATCH]
    generalize (L.pcre2_match re subject (strlen subject) 0 0).1 = rc
    constructor
    · constructor
      · intro h
        by_contra hneg
        rw [if_neg (by omega)] at h
        split at h <;> omega
      · intro h
        rw [if_pos (by omega)]
    · constructor
      · intro h
        by_cases h0 : rc ≥ 0
        · rw [if_pos h0] at h; omega
        · rw [if_neg h0] at h
          by_contra hne
          rw [if_neg hne] at h
          omega
      · intro h
        subst h
        decide

/-- Witness of C1: scenario 1 of the specification on the recorded library.  The pattern
`NUMBER` compiles, the caseless match on `Hello number 10` returns a code `>= 0`, and so
`re_ismatch` is `1`. -/
theorem re_ismatch_result_mapping_witness :
    re_ismatch recorded (bytes "NUMBER") (bytes "Hello number 10") 1 = 1 :=
  (((re_ismatch_result_mapping recorded (bytes "NUMBER") (bytes "Hello number 10") 1).2
    ⟨bytes "NUMBER", true⟩ rfl).1).mpr (by decide)

/-- C2, counterexample: the pattern `(a+)+$` compiles, and on a subject of forty `a` and a `!`
the match call ends with `PCRE2_ERROR_MATCHLIMIT`; `re_ismatch` is then neither `0` nor `1`. -/
theorem re_ismatch_minus_one_on_valid_pattern :
    (∃ re, recorded.pcre2_compile (bytes "(a+)+$") PCRE2_ZERO_TERMINATED
        (PCRE2_NO_UTF_CHECK ||| (if (0 : Int) ≠ 0 then PCRE2_CASELESS else 0)) = .ok re) ∧
    ¬ (re_ismatch recorded (bytes "(a+)+$") (bytes "aaaaaaaaaaaaaaaaaaaaaaaaaaaaaaaaaaaaaaaa!") 0 = 0
      ∨ re_ismatch recorded (bytes "(a+)+$") (bytes "aaaaaaaaaaaaaaaaaaaaaaaaaaaaaaaaaaaaaaaa!") 0
        = 1) :=
  ⟨⟨⟨bytes "(a+)+$", false⟩, rfl⟩, by decide⟩

/-- C2, amended: the result of `re_ismatch` is `-1`, `0` or `1`; it is `-1` exactly when the
pattern does not compile or the match call returns a negative code other than
`PCRE2_ERROR_NOMATCH`; and for a pattern that compiles it is `1` when the return code of the
match call is `>= 0` and `0` when that return code is `PCRE2_ERROR_NOMATCH`. -/
theorem re_ismatch_minus_one_iff (L : Pcre2) (pattern subject : List Nat) (ignore_case : Int) :
    (re_ismatch L pattern subject ignore_case = -1 ∨ re_ismatch L pattern subject ignore_case = 0
      ∨ re_ismatch L pattern subject ignore_case = 1) ∧
    (re_ismatch L pattern subject ignore_case = -1 ↔
      (∃ e, L.pcre2_compile pattern PCRE2_ZERO_TERMINATED
        (PCRE2_NO_UTF_CHECK ||| (if ignore_case ≠ 0 then PCRE2_CASELESS else 0)) = .error e) ∨
      (∃ re, L.pcre2_compile pattern PCRE2_ZERO_TERMINATED
          (PCRE2_NO_UTF_CHECK ||| (if ignore_case ≠ 0 then PCRE2_CASELESS else 0)) = .ok re ∧
        (L.pcre2_match re subject (strlen subject) 0 0).1 < 0 ∧
        (L.pcre2_match re subject (strlen subject) 0 0).1 ≠ PCRE2_ERROR_NOMATCH)) ∧
    (∀ re, L.pcre2_compile pattern PCRE2_ZERO_TERMINATED
        (PCRE2_NO_UTF_CHECK ||| (if ignore_case ≠ 0 then PCRE2_CASELESS else 0)) = .ok re →
      (0 ≤ (L.pcre2_match re subject (strlen subject) 0 0).1 →
        re_ismatch L pattern subject ignore_case = 1) ∧
      ((L.pcre2_match re subject (strlen subject) 0 0).1 = PCRE2_ERROR_NOMATCH →
        re_ismatch L pattern subject ignore_case = 0)) := by
  unfold re_ismatch
  cases hc : L.pcre2_compile pattern PCRE2_ZERO_TERMINATED
      (PCRE2_NO_UTF_CHECK ||| (if ignore_case ≠ 0 then PCRE2_CASELESS else 0)) with
  | error e =>
    refine ⟨Or.inl rfl, ⟨fun _ => Or.inl ⟨e, rfl⟩, fun _ => rfl⟩, fun re h => ?_⟩
    cases h
  | ok re =>
    simp only [PCRE2_ERROR_NOMATCH]
    have hrc : ∀ rc : Int,
        ((if rc ≥ 0 then (1 : Int) else if rc = -1 then 0 else -1) = -1
          ∨ (if rc ≥ 0 then (1 : Int) else if rc = -1 then 0 else -1) = 0
          ∨ (if rc ≥ 0 then (1 : Int) else if rc = -1 then 0 else -1) = 1) ∧
        ((if rc ≥ 0 then (1 : Int) else if rc = -1 then 0 else -1) = -1 ↔ rc < 0 ∧ rc ≠ -1) ∧
        (0 ≤ rc → (if rc ≥ 0 then (1 : Int) else if rc = -1 then 0 else -1) = 1) ∧
        (rc = -1 → (if rc ≥ 0 then (1 : Int) else if rc = -1 then 0 else -1) = 0) := by
      intro rc
      by_cases h0 : rc ≥ 0
      · rw [if_pos h0]
        exact ⟨Or.inr (Or.inr rfl), ⟨fun h => by omega, fun h => by omega⟩, fun _ => rfl,
          fun h => by omega⟩
      · rw [if_neg h0]
        by_cases h1 : rc = -1
        · rw [if_pos h1]
          exact ⟨Or.inr (Or.inl rfl), ⟨fun h => by omega, fun h => by omega⟩,
            fun h => by omega, fun _ => rfl⟩
        · rw [if_neg h1]
          exact ⟨Or.inl rfl, ⟨fun _ => by omega, fun _ => rfl⟩, fun h => by omega,
            fun h => by omega⟩
    obtain ⟨h1, h2, h3, h4⟩ := hrc (L.pcre2_match re subject (strlen subject) 0 0).1
    refine ⟨h1, ⟨fun h => Or.inr ⟨re, rfl, h2.mp h⟩, fun h => ?_⟩, fun re1 he => ?_⟩
    · rcases h with ⟨e, he⟩ | ⟨re1, he, hlt, hne⟩
      · cases he
      · cases he
        exact h2.mpr ⟨hlt, hne⟩
    · cases he
      exact ⟨h3, h4⟩

/-- Witness of C2 as amended: `NUMBER` compiles, and without `PCRE2_CASELESS` the match call on
`Hello number 10` returns `PCRE2_ERROR_NOMATCH`; the result is `0`. -/
theorem re_ismatch_minus_one_iff_witness :
    re_ismatch recorded (bytes "NUMBER") (bytes "Hello number 10") 0 = 0 :=
  ((re_ismatch_minus_one_iff recorded (bytes "NUMBER") (bytes "Hello number 10") 0).2.2
    ⟨bytes "NUMBER", false⟩ rfl).2 (by decide)

/-! ## Theorems: `re_match` against `re_ismatch` and `free_matches` -/

/-- C3, at the failing input: on the pattern `number` (no capture group) and the subject
`Hello number 10` the match call returns `1`; `re_ismatch` answers `1`, while `re_match`
returns `1` and leaves `*matches` null, with no string in it. -/
theorem re_ismatch_one_re_match_empty :
    re_ismatch recorded (bytes "number") (bytes "Hello number 10") 0 = 1 ∧
    re_match recorded (bytes "number") (bytes "Hello number 10") none = (1, none) := by
  decide

/-- C9, at the failing input: on the pattern `\d+` (no capture group) and the subject
`Hello number 10`, `re_match` returns `1` with `*matches` still null, and `free_matches` called
with that count reads `(*matches)[0]`, an entry that does not exist. -/
theorem re_match_free_matches_mismatch :
    re_match recorded (bytes "\\d+") (bytes "Hello number 10") none = (1, none) ∧
    free_matches (re_match recorded (bytes "\\d+") (bytes "Hello number 10") none).1
      (re_match recorded (bytes "\\d+") (bytes "Hello number 10") none).2 = none := by
  decide

/-- Exact extent of the mismatch between `re_match` and `free_matches`: starting from a null
`*matches`, the reads of `free_matches` all succeed unless `re_match` returned 1. -/
theorem free_matches_after_re_match (L : Pcre2) (pattern subject : List Nat) :
    free_matches (re_match L pattern subject none).1 (re_match L pattern subject none).2 = none
      ↔ (re_match L pattern subject none).1 = 1 := by
  unfold re_match
  cases hc : L.pcre2_compile pattern PCRE2_ZERO_TERMINATED PCRE2_NO_UTF_CHECK with
  | error e => simp [free_matches]
  | ok re =>
    simp only
    generalize (L.pcre2_match re subject (strlen subject) 0 0).1 = rc
    generalize L.pcre2_get_ovector_pointer (L.pcre2_match re subject (strlen subject) 0 0).2 = ov
    by_cases h1 : rc > 1
    · simp only [if_pos h1, free_matches]
      have hall : (List.range rc.toNat).all (entry_exists
          (some ((List.range rc.toNat).map (substring_copy subject ov)))) = true := by
        rw [List.all_eq_true]
        intro i hi
        simp only [entry_exists, List.length_map, List.length_range, decide_eq_true_eq]
        exact List.mem_range.mp hi
      rw [if_pos hall]
      constructor
      · intro h; cases h
      · intro h; omega
    · simp only [if_neg h1, free_matches]
      by_cases h2 : rc = 1
      · subst h2
        simp [entry_exists]
      · have hz : rc.toNat = 0 := by omega
        rw [hz]
        simp [h2]

/-- Exact extent of the mismatch between `re_ismatch` and `re_match`: on a pattern that
compiles, `re_ismatch` answers 1 while `re_match` leaves a null `*matches` null exactly when the
match call returns 0 or 1. -/
theorem re_ismatch_re_match_disagree (L : Pcre2) (pattern subject : List Nat) (re : L.Code)
    (hc : L.pcre2_compile pattern PCRE2_ZERO_TERMINATED PCRE2_NO_UTF_CHECK = .ok re) :
    (re_ismatch L pattern subject 0 = 1 ∧ (re_match L pattern subject none).2 = none)
      ↔ (match_rc L re subject = 0 ∨ match_rc L re subject = 1) := by
  have hc0 : L.pcre2_compile pattern PCRE2_ZERO_TERMINATED
      (PCRE2_NO_UTF_CHECK ||| (if (0 : Int) ≠ 0 then PCRE2_CASELESS else 0)) = .ok re := by
    simpa using hc
  simp only [re_ismatch, re_match, hc, hc0, match_rc, PCRE2_ERROR_NOMATCH]
  generalize (L.pcre2_match re subject (strlen subject) 0 0).1 = rc
  by_cases h1 : rc > 1
  · simp only [if_pos h1]
    constructor
    · rintro ⟨_, h⟩; cases h
    · intro h; omega
  · simp only [if_neg h1]
    by_cases h0 : rc ≥ 0
    · simp only [if_pos h0, true_and]
      constructor
      · intro _; omega
      · intro _; trivial
    · simp only [if_neg h0]
      constructor
      · rintro ⟨h, _⟩
        split at h <;> omega
      · intro h; omega

/-! ## Theorems: the strings `re_match` stores -/

/-- Elements of a C string are not NUL. -/
theorem cstring_ne_zero (s : List Nat) : ∀ b ∈ cstring s, (b != 0) = true := by
  intro b hb
  unfold cstring at hb
  exact List.mem_takeWhile_imp (p := fun b => b != 0) hb

/-- The C string of a text without NUL followed by a NUL is the text. -/
theorem cstring_terminated (text rest : List Nat) (h : ∀ b ∈ text, (b != 0) = true) :
    cstring (text ++ 0 :: rest) = text := by
  unfold cstring
  rw [List.takeWhile_append_of_pos h]
  simp

/-- Digits are not NUL. -/
theorem fmt_nat_aux_ne_zero (fuel n : Nat) (acc : List Nat)
    (hacc : ∀ b ∈ acc, (b != 0) = true) : ∀ b ∈ fmt_nat_aux fuel n acc, (b != 0) = true := by
  induction fuel generalizing n acc with
  | zero => simpa [fmt_nat_aux] using hacc
  | succ k ih =>
    unfold fmt_nat_aux
    split
    · intro b hb
      rcases List.mem_cons.mp hb with h | h
      · subst h; simp
      · exact hacc b h
    · apply ih
      intro b hb
      rcases List.mem_cons.mp hb with h | h
      · subst h; simp
      · exact hacc b h

/-- The output of `%d` and `%ld` has no NUL. -/
theorem fmt_int_ne_zero (i : Int) : ∀ b ∈ fmt_int i, (b != 0) = true := by
  unfold fmt_int fmt_nat
  split
  · intro b hb
    rcases List.mem_cons.mp hb with h | h
    · subst h; decide
    · exact fmt_nat_aux_ne_zero 20 _ [] (by simp) b h
  · exact fmt_nat_aux_ne_zero 20 _ [] (by simp)

/-- The string `sprintf` leaves in `result` after a compile error. -/
theorem cstring_sprintf_compile_error (erroroffset : Nat) (reg_error : List Nat) :
    cstring (sprintf_compile_error erroroffset reg_error)
      = bytes "Error compiling regexp at offset #" ++ fmt_int (to_long erroroffset) ++ bytes ": '"
        ++ cstring reg_error ++ bytes "'." := by
  unfold sprintf_compile_error fmt_s
  apply cstring_terminated
  intro b hb
  simp only [List.mem_append] at hb
  rcases hb with (((h | h) | h) | h) | h
  · revert b; decide
  · exact fmt_int_ne_zero _ b h
  · revert b; decide
  · exact cstring_ne_zero _ b h
  · revert b; decide

/-- The string `sprintf` leaves in `result` after a failed substitution, whatever the library
stored there before. -/
theorem cstring_sprintf_replace_error (reg_error old : List Nat) :
    cstring (store (sprintf_replace_error reg_error) old)
      = bytes "Error during replace: '" ++ cstring reg_error ++ bytes "'." := by
  unfold store sprintf_replace_error fmt_s
  rw [List.append_assoc]
  apply cstring_terminated
  intro b hb
  simp only [List.mem_append] at hb
  rcases hb with (h | h) | h
  · revert b; decide
  · exact cstring_ne_zero _ b h
  · revert b; decide

/-- C6: `re_replace` returns 0 exactly when the pattern compiles and the substitute call returns
a non-negative code, and `result` is then what that call stored; in every other case it returns
-1 and `result` holds the message `Error compiling regexp at offset #<offset>: '<message>'.`
after a compile error, `Error during replace: '<message>'.` after a failed substitution. -/
theorem re_replace_result (L : Pcre2) (re replacement subject : List Nat) (result_len : Nat)
    (all : Int) :
    ((re_replace L re replacement subject result_len all).1 = 0 ↔
      ∃ c, L.pcre2_compile re PCRE2_ZERO_TERMINATED PCRE2_NO_UTF_CHECK = .ok c ∧
        0 ≤ (substitute_call L c replacement subject result_len all).1) ∧
    ((re_replace L re replacement subject result_len all).1 = 0 ∨
      (re_replace L re replacement subject result_len all).1 = -1) ∧
    (∀ c, L.pcre2_compile re PCRE2_ZERO_TERMINATED PCRE2_NO_UTF_CHECK = .ok c →
      0 ≤ (substitute_call L c replacement subject result_len all).1 →
      re_replace L re replacement subject result_len all
        = (0, (substitute_call L c replacement subject result_len all).2)) ∧
    (∀ c, L.pcre2_compile re PCRE2_ZERO_TERMINATED PCRE2_NO_UTF_CHECK = .ok c →
      (substitute_call L c replacement subject result_len all).1 < 0 →
      (re_replace L re replacement subject result_len all).1 = -1 ∧
      cstring (re_replace L re replacement subject result_len all).2
        = bytes "Error during replace: '"
          ++ cstring (L.pcre2_get_error_message
              (substitute_call L c replacement subject result_len all).1 4096)
          ++ bytes "'.") ∧
    (∀ errorcode erroroffset,
      L.pcre2_compile re PCRE2_ZERO_TERMINATED PCRE2_NO_UTF_CHECK
        = .error (errorcode, erroroffset) →
      (re_replace L re replacement subject result_len all).1 = -1 ∧
      cstring (re_replace L re replacement subject result_len all).2
        = bytes "Error compiling regexp at offset #" ++ fmt_int (to_long erroroffset)
          ++ bytes ": '" ++ cstring (L.pcre2_get_error_message errorcode 4096) ++ bytes "'.") := by
  cases hc : L.pcre2_compile re PCRE2_ZERO_TERMINATED PCRE2_NO_UTF_CHECK with
  | error e =>
    obtain ⟨errorcode, erroroffset⟩ := e
    have hv : re_replace L re replacement subject result_len all
        = (-1, sprintf_compile_error erroroffset (L.pcre2_get_error_message errorcode 4096)) := by
      simp only [re_replace, hc]
    rw [hv]
    refine ⟨⟨fun h => ?_, fun h => ?_⟩, Or.inr rfl, fun c h => ?_, fun c h => ?_,
      fun ec eo h => ?_⟩
    · exact absurd (show (-1 : Int) = 0 from h) (by decide)
    · obtain ⟨c, h1, _⟩ := h
      cases h1
    · cases h
    · cases h
    · cases h
      exact ⟨rfl, cstring_sprintf_compile_error _ _⟩
  | ok c =>
    by_cases hneg : (substitute_call L c replacement subject result_len all).1 < 0
    · have hv : re_replace L re replacement subject result_len all
          = (-1, store (sprintf_replace_error (L.pcre2_get_error_message
              (substitute_call L c replacement subject result_len all).1 4096))
              (substitute_call L c replacement subject result_len all).2) := by
        unfold substitute_call at hneg
        simp only [re_replace, hc, substitute_call]
        rw [if_pos hneg]
      rw [hv]
      refine ⟨⟨fun h => ?_, fun h => ?_⟩, Or.inr rfl, fun c1 h h0 => ?_, fun c1 h _ => ?_,
        fun ec eo h => ?_⟩
      · exact absurd (show (-1 : Int) = 0 from h) (by decide)
      · obtain ⟨c1, h1, h2⟩ := h
        cases h1
        omega
      · cases h
        omega
      · cases h
        exact ⟨rfl, cstring_sprintf_replace_error _ _⟩
      · cases h
    · have hv : re_replace L re replacement subject result_len all
          = (0, (substitute_call L c replacement subject result_len all).2) := by
        unfold substitute_call at hneg
        simp only [re_replace, hc, substitute_call]
        rw [if_neg hneg]
      rw [hv]
      refine ⟨⟨fun _ => ⟨c, rfl, by omega⟩, fun _ => rfl⟩, Or.inl rfl, fun c1 h _ => ?_,
        fun c1 h h0 => ?_, fun ec eo h => ?_⟩
      · cases h
        rfl
      · cases h
        omega
      · cases h

/-- Witness of C6: on the recorded library the pattern `(` fails to compile with error 114 at
offset 1, and `re_replace` returns -1 with the compile message in `result`. -/
theorem re_replace_result_witness :
    (re_replace recorded (bytes "(") (bytes "AA") (bytes "Hello") 1024 0).1 = -1 ∧
    cstring (re_replace recorded (bytes "(") (bytes "AA") (bytes "Hello") 1024 0).2
      = bytes "Error compiling regexp at offset #1: 'missing closing parenthesis'." :=
  ⟨((re_replace_result recorded (bytes "(") (bytes "AA") (bytes "Hello") 1024 0).2.2.2.2
      114 1 rfl).1,
   ((re_replace_result recorded (bytes "(") (bytes "AA") (bytes "Hello") 1024 0).2.2.2.2
      114 1 rfl).2.trans (by decide)⟩

/-- Extent of the overrun on the compile-error path: whatever `result_len` is, at least 41 bytes
are stored in `result` (34 of fixed text, a digit, 5 more of fixed text and the NUL). -/
theorem re_replace_compile_error_length (L : Pcre2) (re replacement subject : List Nat)
    (result_len : Nat) (all : Int) (e : Int × Nat)
    (hc : L.pcre2_compile re PCRE2_ZERO_TERMINATED PCRE2_NO_UTF_CHECK = .error e) :
    41 ≤ (re_replace L re replacement subject result_len all).2.length := by
  obtain ⟨errorcode, erroroffset⟩ := e
  have hd : 1 ≤ (fmt_int (to_long erroroffset)).length := by
    unfold fmt_int fmt_nat
    split
    · simp
    · rw [fmt_nat_aux]
      split
      · simp
      · generalize to_long erroroffset = v
        have hmono : ∀ fuel n acc, acc.length ≤ (fmt_nat_aux fuel n acc).length := by
          intro fuel
          induction fuel with
          | zero => intro n acc; simp [fmt_nat_aux]
          | succ k ih =>
            intro n acc
            unfold fmt_nat_aux
            split
            · simp
            · exact le_trans (by simp) (ih _ _)
        exact le_trans (by simp) (hmono 19 _ _)
  have h1 : (bytes "Error compiling regexp at offset #").length = 34 := by decide
  have h2 : (bytes ": '").length = 3 := by decide
  have h3 : (bytes "'.").length = 2 := by decide
  simp only [re_replace, hc, sprintf_compile_error, List.length_append, h1, h2, h3,
    List.length_singleton]
  omega

/-- C10, at the failing input: with a 4-byte `result` the substitution of `\d+` by `AA` in
`Hello world, 12, 34, 56` does not fit; the library reports `PCRE2_ERROR_NOMEMORY`, and
`re_replace` then stores the 39 bytes of the error message and its terminator in `result`. -/
theorem re_replace_overruns_result :
    re_replace recorded (bytes "\\d+") (bytes "AA") (bytes "Hello world, 12, 34, 56") 4 1
      = (-1, bytes "Error during replace: 'no more memory'." ++ [0]) ∧
    4 < (re_replace recorded (bytes "\\d+") (bytes "AA") (bytes "Hello world, 12, 34, 56") 4 1).2.length
      := by
  decide

/-! ## Theorems: `re_group_byname` against `re_group_bynumber` -/

/-- C8: for a pattern in which the group named `name` has number 1 and the group named `help`
has number 2, `re_group_byname` and `re_group_bynumber` write the same bytes to the standard
output and return the same value; that value is -1 when the pattern does not compile, 1 when
the match call returns a negative code and 0 otherwise. -/
theorem re_group_byname_eq_bynumber (L : Pcre2) (pattern subject : List Nat)
    (hname : ∀ re, L.pcre2_compile pattern PCRE2_ZERO_TERMINATED PCRE2_NO_UTF_CHECK = .ok re →
      NameIsNumber L re (bytes "name") 1 ∧ NameIsNumber L re (bytes "help") 2) :
    re_group_byname L pattern subject = re_group_bynumber L pattern subject ∧
    (∀ e, L.pcre2_compile pattern PCRE2_ZERO_TERMINATED PCRE2_NO_UTF_CHECK = .error e →
      (re_group_bynumber L pattern subject).1 = -1) ∧
    (∀ re, L.pcre2_compile pattern PCRE2_ZERO_TERMINATED PCRE2_NO_UTF_CHECK = .ok re →
      (re_group_bynumber L pattern subject).1 = if match_rc L re subject < 0 then 1 else 0) := by
  cases hc : L.pcre2_compile pattern PCRE2_ZERO_TERMINATED PCRE2_NO_UTF_CHECK with
  | error e =>
    refine ⟨?_, fun e1 _ => ?_, fun re h => ?_⟩
    · simp only [re_group_byname, re_group_bynumber, hc]
    · simp only [re_group_bynumber, hc]
    · cases h
  | ok re =>
    obtain ⟨h1, h2⟩ := hname re hc
    refine ⟨?_, fun e h => ?_, fun re1 h => ?_⟩
    · simp only [re_group_byname, re_group_bynumber, hc]
      rw [h1 subject (strlen subject), h2 subject (strlen subject)]
    · cases h
    · cases h
      simp only [re_group_bynumber, hc, match_rc]
      split <;> rfl

/-- The name table of the recorded library resolves `name` to 1 and `help` to 2 in the named
pattern of `main`. -/
theorem recorded_named_groups :
    NameIsNumber recorded ⟨pattern_named, false⟩ (bytes "name") 1 ∧
    NameIsNumber recorded ⟨pattern_named, false⟩ (bytes "help") 2 := by
  have hg : recorded_groups pattern_named
      = some (2, [(bytes "help", 2), (bytes "name", 1)]) := by decide
  have hn : List.lookup (cstring (bytes "name")) [(bytes "help", 2), (bytes "name", 1)]
      = some 1 := by decide
  have hh : List.lookup (cstring (bytes "help")) [(bytes "help", 2), (bytes "name", 1)]
      = some 2 := by decide
  constructor
  · intro subject length
    simp only [recorded, recorded_get_byname, hg, hn]
  · intro subject length
    simp only [recorded, recorded_get_byname, hg, hh]

/-- Witness of C8: the named pattern of `main` on the subject of `main`.  Both functions
return 0 and print the two group lines. -/
theorem re_group_byname_eq_bynumber_witness :
    re_group_byname recorded pattern_named subject_build
      = re_group_bynumber recorded pattern_named subject_build ∧
    re_group_bynumber recorded pattern_named subject_build
      = (0, bytes "group1=[build]\ngroup2=[compile this software]\n") := by
  refine ⟨(re_group_byname_eq_bynumber recorded pattern_named subject_build ?_).1, by decide⟩
  intro re hre
  have hok : recorded.pcre2_compile pattern_named PCRE2_ZERO_TERMINATED PCRE2_NO_UTF_CHECK
      = .ok ⟨pattern_named, false⟩ := rfl
  rw [hok] at hre
  cases hre
  exact recorded_named_groups

/-! ## Theorems: what `re_replace` replaces -/

/-- The empty slice. -/
theorem slice_self (s : List Nat) (a : Nat) : slice s a a = [] := by
  simp [slice]

end Pcre2Study
